import Mathlib

/-!
Verification development for the ChaseFlow AI repository.

The repository ships a React frontend (src/frontend and the unnamed parts:
utils/api.js, utils/formatters.js, the dashboard components) together with a
specification of the Chase Orchestration Engine (state machine, scheduler,
escalation policy, predictor, dispatcher).  The frontend utilities are embedded
directly from their JavaScript source; the engine itself is not present in the
source tree, so its operations are modelled from the specification, as marked
on each definition.
-/

/-! ## JavaScript value and HTTP model (shared by the frontend embeddings) -/

/-- Minimal JSON value model for bodies handled by `JSON.stringify` /
`response.json()` in src/frontend/src/utils/api.js. -/
inductive Json where
  | null : Json
  | bool : Bool → Json
  | num : Int → Json
  | str : String → Json
  | arr : List Json → Json
  | obj : List (String × Json) → Json

mutual

/-- Model of `JSON.stringify` on the `Json` value model. -/
def Json.stringify : Json → String
  | .null => "null"
  | .bool b => cond b "true" "false"
  | .num n => toString n
  | .str s => "\"" ++ s ++ "\""
  | .arr xs => "[" ++ Json.stringifyArr xs ++ "]"
  | .obj kvs => "\x7b" ++ Json.stringifyObj kvs ++ "\x7d"

/-- Comma-separated rendering of a JSON array's elements. -/
def Json.stringifyArr : List Json → String
  | [] => ""
  | [x] => Json.stringify x
  | x :: y :: xs => Json.stringify x ++ "," ++ Json.stringifyArr (y :: xs)

/-- Comma-separated rendering of a JSON object's key/value pairs. -/
def Json.stringifyObj : List (String × Json) → String
  | [] => ""
  | [(k, v)] => "\"" ++ k ++ "\":" ++ Json.stringify v
  | (k, v) :: kv :: kvs =>
      "\"" ++ k ++ "\":" ++ Json.stringify v ++ "," ++ Json.stringifyObj (kv :: kvs)

end

/-- An outgoing HTTP request as assembled by `fetch` calls in api.js. -/
structure Request where
  method : String
  url : String
  headers : List (String × String)
  body : String
deriving Repr, DecidableEq

/-- The part of a `fetch` response api.js inspects: the `ok` flag and the
JSON-parsed body returned by `response.json()`. -/
structure Response where
  ok : Bool
  body : Json

/-- `API_BASE` from src/frontend/src/utils/api.js. -/
def API_BASE : String := "http://localhost:8000/api"

/-- The GET request `api.get` sends for an endpoint (src/frontend/src/utils/api.js). -/
def getRequest (endpoint : String) : Request :=
  { method := "GET", url := API_BASE ++ endpoint, headers := [], body := "" }

/-- The POST request `api.post` sends for an endpoint and payload
(src/frontend/src/utils/api.js): JSON content type, `JSON.stringify` body. -/
def postRequest (endpoint : String) (data : Json) : Request :=
  { method := "POST"
    url := API_BASE ++ endpoint
    headers := [("Content-Type", "application/json")]
    body := Json.stringify data }

/-- `api.get` from src/frontend/src/utils/api.js.  The network is the explicit
`fetch` argument; the result lists the requests issued and either the parsed
body or the thrown error message. -/
def apiGet (fetch : Request → Response) (endpoint : String) :
    List Request × Except String Json :=
  let r := fetch (getRequest endpoint)
  ([getRequest endpoint], if r.ok then Except.ok r.body else Except.error "API Error")

/-- `api.post` from src/frontend/src/utils/api.js. -/
def apiPost (fetch : Request → Response) (endpoint : String) (data : Json) :
    List Request × Except String Json :=
  let r := fetch (postRequest endpoint data)
  ([postRequest endpoint data],
    if r.ok then Except.ok r.body else Except.error "API Error")

/-- The endpoint path `processItem` targets for a given item id
(src/frontend/src/utils/api.js line 25). -/
def processPath (id : Nat) : String := "/chase-items/" ++ toString id ++ "/process"

/-- `processItem` from src/frontend/src/utils/api.js:
`api.post("/chase-items/" + id + "/process", {})`. -/
def processItem (fetch : Request → Response) (id : Nat) :
    List Request × Except String Json :=
  apiPost fetch (processPath id) (Json.obj [])

/-- A `fetch` stub that always answers ok with a null body (used to exercise
the success paths of the api wrappers at concrete inputs). -/
def alwaysOk : Request → Response := fun _ => { ok := true, body := Json.null }

/-! ## Formatters (src/frontend/src/utils/formatters.js, unnamed part_001) -/

/-- A JavaScript value in string position: `null`, `undefined`, or a string.
These are the falsy-or-string inputs the formatters receive. -/
inductive JsStr where
  | jsNull : JsStr
  | jsUndefined : JsStr
  | jsString : String → JsStr
deriving Repr, DecidableEq

/-- JavaScript truth test `!dateString` on a `JsStr`: `null`, `undefined` and
the empty string are falsy. -/
def jsFalsy : JsStr → Bool
  | .jsNull => true
  | .jsUndefined => true
  | .jsString s => s == ""

/-- Underlying string content (the non-falsy path only ever reads this). -/
def JsStr.getD : JsStr → String
  | .jsString s => s
  | _ => ""

/-- `formatDate` from formatters.js.  `localeFormat` stands for the
environment's `new Date(s).toLocaleDateString(...)`. -/
def formatDate (localeFormat : String → String) (dateString : JsStr) : String :=
  if jsFalsy dateString then "N/A" else localeFormat dateString.getD

/-- The cascade of `formatRelativeTime` on the millisecond difference
`d = now - date`, with JavaScript `Math.floor` division embedded as `Int.fdiv`
(floor division). -/
def relativeFromDiff (d : Int) : String :=
  if Int.fdiv d 60000 < 1 then "Just now"
  else if Int.fdiv d 60000 < 60 then toString (Int.fdiv d 60000) ++ "m ago"
  else if Int.fdiv d 3600000 < 24 then toString (Int.fdiv d 3600000) ++ "h ago"
  else toString (Int.fdiv d 86400000) ++ "d ago"

/-- `formatRelativeTime` from formatters.js.  `now` is the current epoch
milliseconds, `parseDate` the environment's `new Date(string)` value. -/
def formatRelativeTime (now : Int) (parseDate : String → Int) (dateString : JsStr) :
    String :=
  if jsFalsy dateString then "N/A"
  else relativeFromDiff (now - parseDate dateString.getD)

/-- The band description of the relative-time output, written from the spec
wording: "Just now" when m < 1, "m ago" for 1 ≤ m < 60, "h ago" when m ≥ 60 and
h < 24, "d ago" otherwise, with m, h, days the floored quotients of d. -/
def relativeBands (d : Int) : String :=
  if Int.fdiv d 60000 < 1 then "Just now"
  else if 1 ≤ Int.fdiv d 60000 ∧ Int.fdiv d 60000 < 60 then
    toString (Int.fdiv d 60000) ++ "m ago"
  else if 60 ≤ Int.fdiv d 60000 ∧ Int.fdiv d 3600000 < 24 then
    toString (Int.fdiv d 3600000) ++ "h ago"
  else toString (Int.fdiv d 86400000) ++ "d ago"

/-! ## Chase Orchestration Engine (modelled from the spec; the backend is not
in the source tree) -/

/-- Modelled from the spec: the ChaseItem state machine states of spec §4.1. -/
inductive Status where
  | created : Status
  | pending : Status
  | sent : Status
  | awaitingResponse : Status
  | overdue : Status
  | escalated : Status
  | received : Status
  | completed : Status
  | failed : Status
deriving Repr, DecidableEq

/-- Modelled from the spec: `Received`, `Completed` and `Failed` are terminal. -/
def terminalStatus : Status → Bool
  | .received => true
  | .completed => true
  | .failed => true
  | _ => false

/-- Modelled from the spec: item priority, raised by escalation, never lowered. -/
inductive Priority where
  | low : Priority
  | medium : Priority
  | high : Priority
deriving Repr, DecidableEq

/-- Modelled from the spec: escalation increments priority if below High. -/
def bumpPriority : Priority → Priority
  | .low => .medium
  | .medium => .high
  | .high => .high

/-- Modelled from the spec: chase item type tag {Document, LOA}. -/
inductive ChaseType where
  | document : ChaseType
  | loa : ChaseType
deriving Repr, DecidableEq

/-- Modelled from the spec: immutable Activity audit record (§3). -/
structure Activity where
  id : Nat
  itemId : Nat
  agentType : String
  action : String
  channel : Option String
  tone : Option String
  outcome : String
  reason : Option String
  timestamp : Rat
deriving Repr, DecidableEq

/-- Modelled from the spec: the ChaseItem data model of §3 (timestamps are
rational epoch milliseconds). -/
structure ChaseItem where
  id : Nat
  itemType : ChaseType
  status : Status
  priority : Priority
  attempts : Nat
  createdAt : Rat
  lastActionAt : Rat
  nextActionAt : Rat
  riskScore : Rat
  history : List Activity
deriving Repr, DecidableEq

/-- Modelled from the spec: per-provider rolling response statistics (§3). -/
structure ProviderProfile where
  providerId : Nat
  meanResponseTime : Rat
  failureRate : Rat
  sampleCount : Nat
  lastUpdated : Rat
deriving Repr, DecidableEq

/-- Modelled from the spec: engine configuration with the spec's defaults
(escalation threshold 3, hard cap 8, backoff parameters of §4.3). -/
structure EngineConfig where
  hardCap : Nat := 8
  escalationThreshold : Nat := 3
  capAttempts : Nat := 6
  baseDelay : Rat := 60000
  growthFactor : Rat := 2
  minDelay : Rat := 60000
  maxDelay : Rat := 86400000
  defaultExpectedResponse : Rat := 1209600000
  defaultFailureRate : Rat := 1/2
  overdueMultiplier : Rat := 3/2
  hardOverdueCap : Rat := 2592000000
deriving Repr, DecidableEq

/-- The engine configuration with all spec defaults. -/
def defaultCfg : EngineConfig := {}

/-- Modelled from the spec: dispatcher outcomes of §4.6. -/
inductive DispatchOutcome where
  | success : DispatchOutcome
  | transientChannelError : DispatchOutcome
  | permanentChannelError : DispatchOutcome
deriving Repr, DecidableEq

/-- Modelled from the spec: backoff §4.3,
`baseDelay * growthFactor ^ min(attempts, capAttempts)` before clamping. -/
def rawDelay (cfg : EngineConfig) (attempts : Nat) : Rat :=
  cfg.baseDelay * cfg.growthFactor ^ min attempts cfg.capAttempts

/-- Modelled from the spec: the backoff delay clamped to `[minDelay, maxDelay]`. -/
def retryDelay (cfg : EngineConfig) (attempts : Nat) : Rat :=
  max cfg.minDelay (min cfg.maxDelay (rawDelay cfg attempts))

/-- Modelled from the spec: the clamped delay with a bounded multiplicative
jitter `j` (spec §4.3: ±10 percent, so `|j| ≤ 1/10`). -/
def jitteredDelay (cfg : EngineConfig) (attempts : Nat) (j : Rat) : Rat :=
  retryDelay cfg attempts * (1 + j)

/-- Modelled from the spec: the next scheduled action time after acting at
`now` with the given attempt count (jitter-free schedule). -/
def scheduleNext (cfg : EngineConfig) (now : Rat) (attempts : Nat) : Rat :=
  now + retryDelay cfg attempts

/-- Modelled from the spec: the expected provider response time, with the
conservative default when no profile exists. -/
def expectedResponse (cfg : EngineConfig) (profile : Option ProviderProfile) : Rat :=
  match profile with
  | some p => p.meanResponseTime
  | none => cfg.defaultExpectedResponse

/-- Modelled from the spec: the agent name recorded on activities. -/
def agentName : ChaseType → String
  | .document => "document_chaser"
  | .loa => "loa_chaser"

/-- Modelled from the spec: build the Activity record appended for one action. -/
def mkActivity (item : ChaseItem) (action outcomeStr : String)
    (reason : Option String) (now : Rat) : Activity :=
  { id := item.history.length + 1
    itemId := item.id
    agentType := agentName item.itemType
    action := action
    channel := none
    tone := none
    outcome := outcomeStr
    reason := reason
    timestamp := now }

/-- Modelled from the spec: one orchestrator processing pass over a single
item (spec §4.1, §4.2 step 4, §4.2 failure handling, §4.6).  Terminal items
are left untouched (conflict logged, no Activity).  A `PermanentChannelError`
maps to `MarkFailed` with the reason recorded.  A `TransientChannelError`
counts as a retry without a forward status transition.  Otherwise the state
machine advances along the §4.1 edges, subject to the absolute attempt cap. -/
def processOne (cfg : EngineConfig) (profile : Option ProviderProfile)
    (item : ChaseItem) (outcome : DispatchOutcome) (now : Rat) :
    ChaseItem × Option Activity :=
  if terminalStatus item.status then (item, none)
  else
    match outcome with
    | .permanentChannelError =>
        let a := mkActivity item "mark_failed" "failure"
          (some "PermanentChannelError") now
        ({ item with status := .failed, history := item.history ++ [a] }, some a)
    | .transientChannelError =>
        if cfg.hardCap ≤ item.attempts then
          let a := mkActivity item "mark_failed" "failure"
            (some "AttemptCapExceeded") now
          ({ item with status := .failed, history := item.history ++ [a] }, some a)
        else
          let a := mkActivity item "retry_scheduled" "transient_error"
            (some "TransientChannelError") now
          ({ item with
              attempts := item.attempts + 1
              lastActionAt := now
              nextActionAt := scheduleNext cfg now (item.attempts + 1)
              history := item.history ++ [a] }, some a)
    | .success =>
        if cfg.hardCap ≤ item.attempts then
          let a := mkActivity item "mark_failed" "failure"
            (some "AttemptCapExceeded") now
          ({ item with status := .failed, history := item.history ++ [a] }, some a)
        else
          match item.status with
          | .created => ({ item with status := .pending }, none)
          | .pending =>
              let a := mkActivity item "send" "success" none now
              ({ item with
                  status := .sent
                  attempts := item.attempts + 1
                  lastActionAt := now
                  nextActionAt := scheduleNext cfg now (item.attempts + 1)
                  history := item.history ++ [a] }, some a)
          | .sent => ({ item with status := .awaitingResponse }, none)
          | .awaitingResponse =>
              if item.lastActionAt + expectedResponse cfg profile < now then
                ({ item with status := .overdue }, none)
              else (item, none)
          | .overdue =>
              if cfg.escalationThreshold ≤ item.attempts ∨
                  item.createdAt + cfg.hardOverdueCap < now then
                let a := mkActivity item "escalate" "success" none now
                ({ item with
                    status := .escalated
                    priority := bumpPriority item.priority
                    history := item.history ++ [a] }, some a)
              else
                let a := mkActivity item "send" "success" none now
                ({ item with
                    attempts := item.attempts + 1
                    lastActionAt := now
                    nextActionAt := scheduleNext cfg now (item.attempts + 1)
                    history := item.history ++ [a] }, some a)
          | .escalated =>
              let a := mkActivity item "send_escalated" "success" none now
              ({ item with
                  status := .awaitingResponse
                  attempts := item.attempts + 1
                  lastActionAt := now
                  nextActionAt := scheduleNext cfg now (item.attempts + 1)
                  history := item.history ++ [a] }, some a)
          | .received => (item, none)
          | .completed => (item, none)
          | .failed => (item, none)

/-- Modelled from the spec: apply a sequence of processing events (dispatch
outcome and clock reading each) to an item, following its lifetime. -/
def runSteps (cfg : EngineConfig) (profile : Option ProviderProfile)
    (item : ChaseItem) (evs : List (DispatchOutcome × Rat)) : ChaseItem :=
  evs.foldl (fun it ev => (processOne cfg profile it ev.1 ev.2).1) item

/-! ## Predictor (modelled from spec §4.4) -/

/-- Modelled from the spec: risk classification bands Low/Medium/High. -/
inductive RiskClass where
  | low : RiskClass
  | medium : RiskClass
  | high : RiskClass
deriving Repr, DecidableEq

/-- Clamp a rational to the unit interval. -/
def clamp01 (x : Rat) : Rat := max 0 (min 1 x)

/-- Modelled from the spec: the §4.4 classification bands
`Low [0, 0.33)`, `Medium [0.33, 0.66)`, `High [0.66, 1.0]`. -/
def classifyRisk (s : Rat) : RiskClass :=
  if s < 33/100 then .low else if s < 66/100 then .medium else .high

/-- Predictor output: the score and its classification. -/
structure Prediction where
  riskScore : Rat
  classification : RiskClass
deriving Repr, DecidableEq

/-- Modelled from the spec: the §4.4 scoring function.  Combines normalised
elapsed time against the provider's mean response time, attempt count against
the escalation threshold, and the provider's historical failure rate; with no
profile it falls back to the conservative defaults instead of failing. -/
def predict (cfg : EngineConfig) (item : ChaseItem)
    (profile : Option ProviderProfile) (now : Rat) : Prediction :=
  let expected := expectedResponse cfg profile
  let failRate := match profile with
    | some p => clamp01 p.failureRate
    | none => clamp01 cfg.defaultFailureRate
  let elapsedFactor := clamp01 ((now - item.createdAt) / max 1 expected)
  let attemptFactor := clamp01 ((item.attempts : Rat) / max 1 (cfg.escalationThreshold : Rat))
  let score := clamp01 ((elapsedFactor + attemptFactor + failRate) / 3)
  { riskScore := score, classification := classifyRisk score }

/-- Membership of a score in the spec's band for a classification, written
from the spec wording of §4.4. -/
def inBand : RiskClass → Rat → Prop
  | .low, s => 0 ≤ s ∧ s < 33/100
  | .medium, s => 33/100 ≤ s ∧ s < 66/100
  | .high, s => 66/100 ≤ s ∧ s ≤ 1

/-! ## Agent status query (modelled from spec §6) -/

/-- Modelled from the spec: an agent's run status, idle or busy. -/
inductive AgentRunStatus where
  | idle : AgentRunStatus
  | busy : AgentRunStatus
deriving Repr, DecidableEq

/-- Modelled from the spec: internal per-agent state the engine tracks. -/
structure AgentState where
  agentId : Nat
  agentType : String
  lastAction : Option String
  lastActionTime : Option Rat
  itemsProcessed : Nat
  working : Bool
deriving Repr, DecidableEq

/-- Modelled from the spec: the per-agent record `getAgentStatus()` exposes:
last action, processed count, current status (idle/busy). -/
structure AgentStatusRecord where
  agentId : Nat
  lastAction : Option String
  itemsProcessed : Nat
  status : AgentRunStatus
deriving Repr, DecidableEq

/-- Modelled from the spec: project one agent's state to its status record. -/
def agentStatusOf (a : AgentState) : AgentStatusRecord :=
  { agentId := a.agentId
    lastAction := a.lastAction
    itemsProcessed := a.itemsProcessed
    status := if a.working then .busy else .idle }

/-- Modelled from the spec: `getAgentStatus()` over the engine's agents. -/
def getAgentStatus (agents : List AgentState) : List AgentStatusRecord :=
  agents.map agentStatusOf

/-! ## Concrete sample data for witnesses -/

/-- A chase item in the terminal `received` state. -/
def doneItem : ChaseItem :=
  { id := 1
    itemType := .document
    status := .received
    priority := .high
    attempts := 4
    createdAt := 0
    lastActionAt := 10
    nextActionAt := 20
    riskScore := 1/2
    history := [] }

/-- A chase item awaiting its first dispatch. -/
def pendingItem : ChaseItem :=
  { id := 2
    itemType := .loa
    status := .pending
    priority := .medium
    attempts := 0
    createdAt := 0
    lastActionAt := 0
    nextActionAt := 0
    riskScore := 0
    history := [] }

/-- A sample agent state for the status query. -/
def sampleAgent : AgentState :=
  { agentId := 1
    agentType := "document_chaser"
    lastAction := some "send"
    lastActionTime := some 100
    itemsProcessed := 12
    working := false }

/-! ## Helper lemmas -/

theorem processOne_attempts_mono (cfg : EngineConfig) (profile : Option ProviderProfile)
    (item : ChaseItem) (outcome : DispatchOutcome) (now : Rat) :
    item.attempts ≤ (processOne cfg profile item outcome now).1.attempts := by
  unfold processOne
  repeat' split
  all_goals simp

theorem processOne_attempts_cap (cfg : EngineConfig) (profile : Option ProviderProfile)
    (item : ChaseItem) (outcome : DispatchOutcome) (now : Rat)
    (h : item.attempts ≤ cfg.hardCap) :
    (processOne cfg profile item outcome now).1.attempts ≤ cfg.hardCap := by
  unfold processOne
  repeat' split
  all_goals simp
  all_goals omega

theorem clamp01_nonneg (x : Rat) : 0 ≤ clamp01 x := le_max_left 0 _

theorem clamp01_le_one (x : Rat) : clamp01 x ≤ 1 :=
  max_le (by norm_num) (min_le_left 1 x)

theorem inBand_classify (s : Rat) (h0 : 0 ≤ s) (h1 : s ≤ 1) :
    inBand (classifyRisk s) s := by
  unfold classifyRisk
  split_ifs with ha hb
  · exact ⟨h0, ha⟩
  · exact ⟨le_of_not_lt ha, hb⟩
  · exact ⟨le_of_not_lt hb, h1⟩

theorem relativeFromDiff_eq_bands (d : Int) :
    relativeFromDiff d = relativeBands d := by
  unfold relativeFromDiff relativeBands
  generalize Int.fdiv d 60000 = m
  generalize Int.fdiv d 3600000 = h
  generalize Int.fdiv d 86400000 = dd
  split_ifs <;> first | rfl | omega

/-! ## Claim theorems -/

/-- C1: invoking processing on a chase item in a terminal state (Received,
Completed or Failed) is a no-op: the item is returned unchanged, no Activity
is produced, and the operation returns normally rather than erroring. -/
theorem terminal_process_noop (cfg : EngineConfig) (profile : Option ProviderProfile)
    (item : ChaseItem) (outcome : DispatchOutcome) (now : Rat)
    (h : terminalStatus item.status = true) :
    processOne cfg profile item outcome now = (item, none) := by
  simp [processOne, h]

theorem terminal_process_noop_witness :
    terminalStatus doneItem.status = true ∧
    processOne defaultCfg none doneItem DispatchOutcome.success 0 = (doneItem, none) :=
  ⟨rfl, terminal_process_noop defaultCfg none doneItem DispatchOutcome.success 0 rfl⟩

/-- C2: across any sequence of processing events in an item's lifetime, the
`attempts` counter (a natural number) never decreases and never exceeds the
configured absolute hard cap, provided it starts within the cap. -/
theorem attempts_monotone_and_capped (cfg : EngineConfig)
    (profile : Option ProviderProfile) (item : ChaseItem)
    (evs : List (DispatchOutcome × Rat)) (h : item.attempts ≤ cfg.hardCap) :
    item.attempts ≤ (runSteps cfg profile item evs).attempts
    ∧ (runSteps cfg profile item evs).attempts ≤ cfg.hardCap := by
  induction evs generalizing item with
  | nil => exact ⟨le_refl _, h⟩
  | cons ev evs ih =>
      rw [show runSteps cfg profile item (ev :: evs)
            = runSteps cfg profile (processOne cfg profile item ev.1 ev.2).1 evs from rfl]
      have h1 := processOne_attempts_mono cfg profile item ev.1 ev.2
      have h2 := processOne_attempts_cap cfg profile item ev.1 ev.2 h
      have h3 := ih (processOne cfg profile item ev.1 ev.2).1 h2
      exact ⟨le_trans h1 h3.1, h3.2⟩

theorem attempts_monotone_and_capped_witness :
    pendingItem.attempts ≤ defaultCfg.hardCap ∧
    (pendingItem.attempts ≤ (runSteps defaultCfg none pendingItem
        [(DispatchOutcome.success, 1), (DispatchOutcome.transientChannelError, 2)]).attempts
     ∧ (runSteps defaultCfg none pendingItem
        [(DispatchOutcome.success, 1), (DispatchOutcome.transientChannelError, 2)]).attempts
          ≤ defaultCfg.hardCap) :=
  ⟨by decide, attempts_monotone_and_capped defaultCfg none pendingItem
    [(DispatchOutcome.success, 1), (DispatchOutcome.transientChannelError, 2)] (by decide)⟩

/-- C3: when the dispatcher reports a PermanentChannelError for an item in any
non-terminal state, processing moves the item directly to Failed — whatever its
attempts count — and appends an Activity recording the failure reason. -/
theorem permanent_error_marks_failed (cfg : EngineConfig)
    (profile : Option ProviderProfile) (item : ChaseItem) (now : Rat)
    (h : terminalStatus item.status = false) :
    (processOne cfg profile item DispatchOutcome.permanentChannelError now).1.status
      = Status.failed
    ∧ ∃ a, (processOne cfg profile item DispatchOutcome.permanentChannelError now).2
          = some a
        ∧ a.reason = some "PermanentChannelError"
        ∧ (processOne cfg profile item DispatchOutcome.permanentChannelError now).1.history
            = item.history ++ [a] := by
  refine ⟨?_, mkActivity item "mark_failed" "failure" (some "PermanentChannelError") now,
    ?_, rfl, ?_⟩ <;> simp [processOne, h]

theorem permanent_error_marks_failed_witness :
    terminalStatus pendingItem.status = false ∧
    ((processOne defaultCfg none pendingItem DispatchOutcome.permanentChannelError 5).1.status
      = Status.failed
    ∧ ∃ a, (processOne defaultCfg none pendingItem DispatchOutcome.permanentChannelError 5).2
          = some a
        ∧ a.reason = some "PermanentChannelError"
        ∧ (processOne defaultCfg none pendingItem DispatchOutcome.permanentChannelError 5).1.history
            = pendingItem.history ++ [a]) :=
  ⟨rfl, permanent_error_marks_failed defaultCfg none pendingItem 5 rfl⟩

/-- C4: for every input — with or without a provider profile — the Predictor
returns a risk score in [0,1] whose classification sits exactly in the spec's
bands Low [0, 0.33), Medium [0.33, 0.66), High [0.66, 1]; the no-profile case
goes through the same total function via the conservative defaults. -/
theorem predictor_risk_bounds (cfg : EngineConfig) (item : ChaseItem)
    (profile : Option ProviderProfile) (now : Rat) :
    0 ≤ (predict cfg item profile now).riskScore
    ∧ (predict cfg item profile now).riskScore ≤ 1
    ∧ inBand (predict cfg item profile now).classification
        (predict cfg item profile now).riskScore := by
  refine ⟨clamp01_nonneg _, clamp01_le_one _, ?_⟩
  exact inBand_classify _ (clamp01_nonneg _) (clamp01_le_one _)

/-- C5: the clamped backoff delay is monotonically non-decreasing in the
attempt count (given a non-negative base delay and growth factor ≥ 1), and the
jitter-free next-action time strictly increases across successive actions as
attempts increase. -/
theorem retry_delay_monotone (cfg : EngineConfig) (a1 a2 : Nat) (t1 t2 : Rat)
    (hb : 0 ≤ cfg.baseDelay) (hg : 1 ≤ cfg.growthFactor)
    (ha : a1 ≤ a2) (ht : t1 < t2) :
    retryDelay cfg a1 ≤ retryDelay cfg a2
    ∧ scheduleNext cfg t1 a1 < scheduleNext cfg t2 a2 := by
  have hraw : rawDelay cfg a1 ≤ rawDelay cfg a2 := by
    unfold rawDelay
    refine mul_le_mul_of_nonneg_left ?_ hb
    exact pow_le_pow_right₀ hg (min_le_min ha (le_refl _))
  have hclamp : retryDelay cfg a1 ≤ retryDelay cfg a2 := by
    unfold retryDelay
    exact max_le_max (le_refl _) (min_le_min (le_refl _) hraw)
  exact ⟨hclamp, add_lt_add_of_lt_of_le ht hclamp⟩

theorem retry_delay_monotone_witness :
    (0 : Rat) ≤ defaultCfg.baseDelay ∧ (1 : Rat) ≤ defaultCfg.growthFactor ∧
    (1 : Nat) ≤ 3 ∧ (0 : Rat) < 1 ∧
    (retryDelay defaultCfg 1 ≤ retryDelay defaultCfg 3
     ∧ scheduleNext defaultCfg 0 1 < scheduleNext defaultCfg 1 3) :=
  ⟨by decide, by decide, by decide, by decide,
   retry_delay_monotone defaultCfg 1 3 0 1 (by decide) (by decide) (by decide) (by decide)⟩

/-- C6: every record the agent-status query returns carries the underlying
agent's last action and items-processed count, and its status field is either
idle or busy. -/
theorem agent_status_shape (agents : List AgentState) (r : AgentStatusRecord)
    (h : r ∈ getAgentStatus agents) :
    (r.status = AgentRunStatus.idle ∨ r.status = AgentRunStatus.busy)
    ∧ ∃ a ∈ agents, r.lastAction = a.lastAction
        ∧ r.itemsProcessed = a.itemsProcessed := by
  simp only [getAgentStatus, List.mem_map] at h
  obtain ⟨a, ha, rfl⟩ := h
  refine ⟨?_, a, ha, rfl, rfl⟩
  by_cases hw : a.working <;> simp [agentStatusOf, hw]

theorem agent_status_shape_witness :
    agentStatusOf sampleAgent ∈ getAgentStatus [sampleAgent] ∧
    (((agentStatusOf sampleAgent).status = AgentRunStatus.idle
      ∨ (agentStatusOf sampleAgent).status = AgentRunStatus.busy)
     ∧ ∃ a ∈ [sampleAgent], (agentStatusOf sampleAgent).lastAction = a.lastAction
        ∧ (agentStatusOf sampleAgent).itemsProcessed = a.itemsProcessed) := by
  have hm : agentStatusOf sampleAgent ∈ getAgentStatus [sampleAgent] := by
    simp [getAgentStatus]
  exact ⟨hm, agent_status_shape [sampleAgent] _ hm⟩

/-- C7: `processItem` issues exactly one request, a POST to
`/chase-items/{id}/process` under the API base URL with the empty JSON object
(serialised as two braces) as body, and returns the parsed JSON body whenever
the response is ok. -/
theorem processItem_single_post (fetch : Request → Response) (id : Nat) :
    (processItem fetch id).1 = [postRequest (processPath id) (Json.obj [])]
    ∧ (postRequest (processPath id) (Json.obj [])).method = "POST"
    ∧ (postRequest (processPath id) (Json.obj [])).url
        = API_BASE ++ ("/chase-items/" ++ toString id ++ "/process")
    ∧ (postRequest (processPath id) (Json.obj [])).body = "\x7b\x7d"
    ∧ ((fetch (postRequest (processPath id) (Json.obj []))).ok = true →
        (processItem fetch id).2
          = Except.ok (fetch (postRequest (processPath id) (Json.obj []))).body) := by
  refine ⟨rfl, rfl, rfl, ?_, ?_⟩
  · simp [postRequest, Json.stringify, Json.stringifyObj]
  · intro h
    simp [processItem, apiPost, h]

theorem processItem_single_post_witness :
    (alwaysOk (postRequest (processPath 7) (Json.obj []))).ok = true ∧
    ((processItem alwaysOk 7).1 = [postRequest (processPath 7) (Json.obj [])]
     ∧ (processItem alwaysOk 7).2 = Except.ok Json.null) := by
  have h := processItem_single_post alwaysOk 7
  exact ⟨rfl, h.1, h.2.2.2.2 rfl⟩

/-- C8: `api.get` and `api.post` yield the error "API Error" exactly when the
response's ok flag is false, and return the parsed JSON body when it is true. -/
theorem api_error_iff (fetch : Request → Response) (e : String) (d : Json) :
    ((apiGet fetch e).2 = Except.error "API Error"
        ↔ (fetch (getRequest e)).ok = false)
    ∧ ((apiPost fetch e d).2 = Except.error "API Error"
        ↔ (fetch (postRequest e d)).ok = false)
    ∧ ((fetch (getRequest e)).ok = true →
        (apiGet fetch e).2 = Except.ok (fetch (getRequest e)).body)
    ∧ ((fetch (postRequest e d)).ok = true →
        (apiPost fetch e d).2 = Except.ok (fetch (postRequest e d)).body) := by
  cases hg : (fetch (getRequest e)).ok <;> cases hp : (fetch (postRequest e d)).ok <;>
    simp [apiGet, apiPost, hg, hp]

theorem api_error_iff_witness :
    (alwaysOk (getRequest "/clients")).ok = true ∧
    (apiGet alwaysOk "/clients").2 = Except.ok (alwaysOk (getRequest "/clients")).body := by
  have h := api_error_iff alwaysOk "/clients" Json.null
  exact ⟨rfl, h.2.2.1 rfl⟩

/-- C9: on every falsy input (null, undefined or the empty string) both
`formatDate` and `formatRelativeTime` return "N/A" (and, being total
functions, do not throw). -/
theorem formatters_falsy_na (localeFormat : String → String) (now : Int)
    (parseDate : String → Int) (ds : JsStr) (h : jsFalsy ds = true) :
    formatDate localeFormat ds = "N/A"
    ∧ formatRelativeTime now parseDate ds = "N/A" := by
  constructor <;> simp [formatDate, formatRelativeTime, h]

theorem formatters_falsy_na_witness :
    jsFalsy (JsStr.jsString "") = true ∧
    (formatDate (fun s => s) (JsStr.jsString "") = "N/A"
     ∧ formatRelativeTime 0 (fun _ => 0) (JsStr.jsString "") = "N/A") :=
  ⟨by decide, formatters_falsy_na (fun s => s) 0 (fun _ => 0) (JsStr.jsString "") (by decide)⟩

/-- C10: on every non-empty date string, `formatRelativeTime` realises exactly
the banded description of the claim — "Just now" when the floored minute
difference is below 1 (negative differences for future dates included),
"`m`m ago" for 1 ≤ m < 60, "`h`h ago" when m ≥ 60 and h < 24, and "`days`d
ago" otherwise. -/
theorem formatRelativeTime_bands (now : Int) (parseDate : String → Int)
    (s : String) (h : s ≠ "") :
    formatRelativeTime now parseDate (JsStr.jsString s)
      = relativeBands (now - parseDate s) := by
  simp [formatRelativeTime, jsFalsy, h, JsStr.getD, relativeFromDiff_eq_bands]

theorem formatRelativeTime_bands_witness :
    ("x" : String) ≠ "" ∧
    formatRelativeTime 120000 (fun _ => 0) (JsStr.jsString "x")
      = relativeBands (120000 - 0) :=
  ⟨by decide, formatRelativeTime_bands 120000 (fun _ => 0) "x" (by decide)⟩
